import Mathlib

/-!
Verification development for the AstroTransform astronomical-coordinate
library.  The numeric core of the library (Julian-date based sidereal time,
hour angle, and the equatorial-to-horizontal transform) is embedded over the
real numbers; the dynamic (scalar vs. numpy-array vs. datetime) calling
conventions of the public entry points are embedded over an explicit value
universe `Py`.

Timestamps (`datetime.datetime` values) are modelled as real numbers measured
in hours on a fixed linear time scale; `datetime - timedelta(hours = z)` is
exact arithmetic at microsecond resolution, so subtraction of `z` hours is a
faithful model.  The Julian-date routine `JD.to_jd` is not part of the sources
under study (only its call sites are), so every definition that needs it is
parameterised by an arbitrary function `toJd : ℝ → ℝ` from instants to Julian
dates.
-/

/-- Python's float modulo `x % m`: the remainder with the sign of the divisor,
`x - m * ⌊x / m⌋`.  In the sources it is only used with the positive
divisor `24`. -/
noncomputable def pmod (x m : ℝ) : ℝ := x - m * ⌊x / m⌋

/-- `np.deg2rad`. -/
noncomputable def deg2rad (d : ℝ) : ℝ := d * (Real.pi / 180)

/-- `np.rad2deg`. -/
noncomputable def rad2deg (r : ℝ) : ℝ := r * (180 / Real.pi)

/-- `lst.local_to_ut` (scalar core): `local_time - timedelta(hours=time_zone)`. -/
noncomputable def local_to_ut (t z : ℝ) : ℝ := t - z

/-- `lst.ut_to_local` (scalar core): `ut + timedelta(hours=time_zone)`. -/
noncomputable def ut_to_local (t z : ℝ) : ℝ := t + z

/-- `lst.lst` (scalar core), parameterised by the Julian-date routine `toJd`:
convert to UT, take `D = jd - 2451545.0`,
`GMST = (18.697374558 + 24.06570982441908 * D) % 24`, then
`LST = (GMST + longitude / 15) % 24`. -/
noncomputable def lst (toJd : ℝ → ℝ) (t L z : ℝ) : ℝ :=
  pmod (pmod (18.697374558 + 24.06570982441908 * (toJd (local_to_ut t z) - 2451545.0)) 24
        + L / 15) 24

/-- `hour_angle.hourangle` (scalar core): `(LST - RA + 12) % 24 - 12`. -/
noncomputable def hourangle (LST RA : ℝ) : ℝ := pmod (LST - RA + 12) 24 - 12

/-- `AltAz.to_alt_az` (scalar numeric core), parameterised by the Julian-date
routine.  Follows the source line by line: degree/hour inputs are converted to
radians, LST and hour angle are computed, altitude is
`arcsin (sin DEC * sin Lat + cos DEC * cos Lat * cos HA)`, the azimuth cosine
is clipped to `[-1, 1]` before `arccos`, and the azimuth is replaced by
`2π - az` when `sin HA_rad > 0`; both outputs are converted back to
degrees. -/
noncomputable def to_alt_az_core (toJd : ℝ → ℝ) (RA DEC Lat Lon t z : ℝ) : ℝ × ℝ :=
  let DEC_rad := deg2rad DEC
  let Lat_rad := deg2rad Lat
  let LST := lst toJd t Lon z
  let HA := hourangle LST RA
  let HA_rad := deg2rad (HA * 15)
  let sin_alt := Real.sin DEC_rad * Real.sin Lat_rad
      + Real.cos DEC_rad * Real.cos Lat_rad * Real.cos HA_rad
  let alt := Real.arcsin sin_alt
  let cos_az := (Real.sin DEC_rad - Real.sin alt * Real.sin Lat_rad)
      / (Real.cos alt * Real.cos Lat_rad)
  let cos_az_clipped := min 1 (max (-1) cos_az)
  let az := Real.arccos cos_az_clipped
  let az_flipped := if Real.sin HA_rad > 0 then 2 * Real.pi - az else az
  (rad2deg alt, rad2deg az_flipped)

/-- `AltAz.max_alt` (scalar numeric core): altitude at hour angle 0. -/
noncomputable def max_alt (DEC Lat : ℝ) : ℝ :=
  rad2deg (Real.arcsin (Real.sin (deg2rad DEC) * Real.sin (deg2rad Lat)
      + Real.cos (deg2rad DEC) * Real.cos (deg2rad Lat) * Real.cos 0))

/-- `pmod` with divisor `m` is `m` times the fractional part of `x / m`. -/
theorem pmod_eq_mul_fract (x m : ℝ) (hm : m ≠ 0) :
    pmod x m = m * Int.fract (x / m) := by
  unfold pmod Int.fract
  field_simp

theorem pmod_nonneg (x m : ℝ) (hm : 0 < m) : 0 ≤ pmod x m := by
  rw [pmod_eq_mul_fract x m hm.ne.symm]
  exact mul_nonneg hm.le (Int.fract_nonneg _)

theorem pmod_lt (x m : ℝ) (hm : 0 < m) : pmod x m < m := by
  rw [pmod_eq_mul_fract x m hm.ne.symm]
  calc m * Int.fract (x / m) < m * 1 := by
        exact mul_lt_mul_of_pos_left (Int.fract_lt_one _) hm
    _ = m := mul_one m

/-- `pmod` leaves a value already in `[0, m)` unchanged. -/
theorem pmod_eq_self (x m : ℝ) (h0 : 0 ≤ x) (h1 : x < m) : pmod x m = x := by
  have hm : 0 < m := lt_of_le_of_lt h0 h1
  have hfloor : ⌊x / m⌋ = 0 := by
    rw [Int.floor_eq_zero_iff]
    constructor
    · exact div_nonneg h0 hm.le
    · rw [div_lt_one hm]; exact h1
  unfold pmod
  rw [hfloor]
  simp

/-- The altitude/azimuth formulas exactly as the specification words them:
the azimuth quadrant flip is performed in degrees (`360 - az`) on the
already-converted arccos value.  To be compared with `to_alt_az_core`. -/
noncomputable def to_alt_az_spec (toJd : ℝ → ℝ) (RA DEC Lat Lon t z : ℝ) : ℝ × ℝ :=
  let DEC_rad := deg2rad DEC
  let Lat_rad := deg2rad Lat
  let HA := hourangle (lst toJd t Lon z) RA
  let HA_rad := deg2rad (HA * 15)
  let alt := Real.arcsin (Real.sin DEC_rad * Real.sin Lat_rad
      + Real.cos DEC_rad * Real.cos Lat_rad * Real.cos HA_rad)
  let az := rad2deg (Real.arccos (min 1 (max (-1)
      ((Real.sin DEC_rad - Real.sin alt * Real.sin Lat_rad)
        / (Real.cos alt * Real.cos Lat_rad)))))
  (rad2deg alt, if Real.sin HA_rad > 0 then 360 - az else az)

/-- `rad2deg` is monotone. -/
theorem rad2deg_le_rad2deg {a b : ℝ} (h : a ≤ b) : rad2deg a ≤ rad2deg b := by
  unfold rad2deg
  have hp : (0:ℝ) ≤ 180 / Real.pi := by positivity
  exact mul_le_mul_of_nonneg_right h hp

theorem rad2deg_pi_div_two : rad2deg (Real.pi / 2) = 90 := by
  unfold rad2deg
  field_simp
  ring

theorem rad2deg_neg_pi_div_two : rad2deg (-(Real.pi / 2)) = -90 := by
  unfold rad2deg
  field_simp
  ring

theorem rad2deg_two_pi : rad2deg (2 * Real.pi) = 360 := by
  unfold rad2deg
  have hπ : Real.pi ≠ 0 := Real.pi_ne_zero
  field_simp
  ring

theorem deg2rad_ninety : deg2rad 90 = Real.pi / 2 := by
  unfold deg2rad
  ring

theorem deg2rad_zero : deg2rad 0 = 0 := by
  unfold deg2rad
  ring

/-- C2: `lst(t, L, z)` equals
`((18.697374558 + 24.06570982441908 * D) mod 24 + L/15) mod 24` with
`D = toJd (t - z) - 2451545.0`, and the result lies in `[0, 24)`; this holds
for every Julian-date routine `toJd`, local time `t`, longitude `L` and UTC
offset `z`. -/
theorem lst_formula_and_range (toJd : ℝ → ℝ) (t L z : ℝ) :
    lst toJd t L z =
      pmod (pmod (18.697374558 + 24.06570982441908 * (toJd (t - z) - 2451545.0)) 24
        + L / 15) 24
    ∧ 0 ≤ lst toJd t L z ∧ lst toJd t L z < 24 := by
  refine ⟨rfl, ?_, ?_⟩
  · exact pmod_nonneg _ 24 (by norm_num)
  · exact pmod_lt _ 24 (by norm_num)

/-- C3: `hourangle(LST, RA) = ((LST - RA + 12) mod 24) - 12`, and the result
lies in the half-open interval `[-12, 12)`. -/
theorem hourangle_formula_and_range (LST RA : ℝ) :
    hourangle LST RA = pmod (LST - RA + 12) 24 - 12
    ∧ -12 ≤ hourangle LST RA ∧ hourangle LST RA < 12 := by
  refine ⟨rfl, ?_, ?_⟩
  · have := pmod_nonneg (LST - RA + 12) 24 (by norm_num)
    unfold hourangle
    linarith
  · have := pmod_lt (LST - RA + 12) 24 (by norm_num)
    unfold hourangle
    linarith

/-- C9: converting a universal time to local time and back with the same UTC
offset is the identity: `local_to_ut (ut_to_local t z) z = t`.  Both
directions add/subtract the same `timedelta(hours = z)`, and datetime
arithmetic is exact. -/
theorem local_ut_round_trip (t z : ℝ) : local_to_ut (ut_to_local t z) z = t := by
  unfold local_to_ut ut_to_local
  ring

/-- C10: `lst` depends on its time and offset arguments only through the
universal-time instant: `lst toJd t L z = lst toJd (t - z) L 0`, for every
Julian-date routine `toJd`. -/
theorem lst_depends_on_ut_only (toJd : ℝ → ℝ) (t L z : ℝ) :
    lst toJd t L z = lst toJd (t - z) L 0 := by
  unfold lst local_to_ut
  norm_num

/-- C1: `to_alt_az` computes altitude as
`arcsin (sin DEC * sin Lat + cos DEC * cos Lat * cos HA)` and azimuth as the
arccos of `(sin DEC - sin alt * sin Lat) / (cos alt * cos Lat)` clamped to
`[-1, 1]`, with the azimuth replaced by `360° - az` exactly when
`sin HA > 0`, HA being derived from the LST and the RA — for every
Julian-date routine and all numeric inputs. -/
theorem to_alt_az_formula (toJd : ℝ → ℝ) (RA DEC Lat Lon t z : ℝ) :
    to_alt_az_core toJd RA DEC Lat Lon t z = to_alt_az_spec toJd RA DEC Lat Lon t z := by
  simp only [to_alt_az_core, to_alt_az_spec]
  split_ifs with h
  · refine Prod.ext rfl ?_
    show rad2deg (2 * Real.pi - _) = 360 - rad2deg _
    unfold rad2deg
    have hπ : Real.pi ≠ 0 := Real.pi_ne_zero
    field_simp
    ring
  · rfl

/-- C4 (amended): the altitude returned by `to_alt_az` always lies in
`[-90, 90]` and the azimuth always lies in the closed interval `[0, 360]`;
the right endpoint 360 is attainable (no final normalization into `[0,360)`
is performed by the code). -/
theorem to_alt_az_output_ranges (toJd : ℝ → ℝ) (RA DEC Lat Lon t z : ℝ) :
    -90 ≤ (to_alt_az_core toJd RA DEC Lat Lon t z).1
    ∧ (to_alt_az_core toJd RA DEC Lat Lon t z).1 ≤ 90
    ∧ 0 ≤ (to_alt_az_core toJd RA DEC Lat Lon t z).2
    ∧ (to_alt_az_core toJd RA DEC Lat Lon t z).2 ≤ 360 := by
  simp only [to_alt_az_core]
  refine ⟨?_, ?_, ?_, ?_⟩
  · rw [show (-90:ℝ) = rad2deg (-(Real.pi / 2)) from rad2deg_neg_pi_div_two.symm]
    exact rad2deg_le_rad2deg (Real.neg_pi_div_two_le_arcsin _)
  · rw [show (90:ℝ) = rad2deg (Real.pi / 2) from rad2deg_pi_div_two.symm]
    exact rad2deg_le_rad2deg (Real.arcsin_le_pi_div_two _)
  · rw [show (0:ℝ) = rad2deg 0 from by unfold rad2deg; ring]
    apply rad2deg_le_rad2deg
    split_ifs with h
    · have := Real.arccos_le_pi (min 1 (max (-1)
        ((Real.sin (deg2rad DEC) - Real.sin (Real.arcsin
            (Real.sin (deg2rad DEC) * Real.sin (deg2rad Lat)
              + Real.cos (deg2rad DEC) * Real.cos (deg2rad Lat)
                * Real.cos (deg2rad (hourangle (lst toJd t Lon z) RA * 15))))
            * Real.sin (deg2rad Lat))
          / (Real.cos (Real.arcsin
            (Real.sin (deg2rad DEC) * Real.sin (deg2rad Lat)
              + Real.cos (deg2rad DEC) * Real.cos (deg2rad Lat)
                * Real.cos (deg2rad (hourangle (lst toJd t Lon z) RA * 15))))
            * Real.cos (deg2rad Lat)))))
      have hπ : 0 < Real.pi := Real.pi_pos
      linarith
    · exact Real.arccos_nonneg _
  · rw [show (360:ℝ) = rad2deg (2 * Real.pi) from rad2deg_two_pi.symm]
    apply rad2deg_le_rad2deg
    split_ifs with h
    · have := Real.arccos_nonneg (min 1 (max (-1)
        ((Real.sin (deg2rad DEC) - Real.sin (Real.arcsin
            (Real.sin (deg2rad DEC) * Real.sin (deg2rad Lat)
              + Real.cos (deg2rad DEC) * Real.cos (deg2rad Lat)
                * Real.cos (deg2rad (hourangle (lst toJd t Lon z) RA * 15))))
            * Real.sin (deg2rad Lat))
          / (Real.cos (Real.arcsin
            (Real.sin (deg2rad DEC) * Real.sin (deg2rad Lat)
              + Real.cos (deg2rad DEC) * Real.cos (deg2rad Lat)
                * Real.cos (deg2rad (hourangle (lst toJd t Lon z) RA * 15))))
            * Real.cos (deg2rad Lat)))))
      linarith
    · have := Real.arccos_le_pi (min 1 (max (-1)
        ((Real.sin (deg2rad DEC) - Real.sin (Real.arcsin
            (Real.sin (deg2rad DEC) * Real.sin (deg2rad Lat)
              + Real.cos (deg2rad DEC) * Real.cos (deg2rad Lat)
                * Real.cos (deg2rad (hourangle (lst toJd t Lon z) RA * 15))))
            * Real.sin (deg2rad Lat))
          / (Real.cos (Real.arcsin
            (Real.sin (deg2rad DEC) * Real.sin (deg2rad Lat)
              + Real.cos (deg2rad DEC) * Real.cos (deg2rad Lat)
                * Real.cos (deg2rad (hourangle (lst toJd t Lon z) RA * 15))))
            * Real.cos (deg2rad Lat)))))
      have hπ : 0 < Real.pi := Real.pi_pos
      linarith

/-- A concrete Julian-date routine used for concrete evaluations: it sends
every instant to the Julian date at which the GMST polynomial yields exactly
6 sidereal hours. -/
noncomputable def jdConst : ℝ → ℝ :=
  fun _ => 2451545.0 + (6 - 18.697374558) / 24.06570982441908

theorem lst_jdConst : lst jdConst 0 0 0 = 6 := by
  simp only [lst, jdConst, local_to_ut, pmod]
  norm_num

theorem hourangle_six : hourangle 6 0 = 6 := by
  simp only [hourangle, pmod]
  norm_num

/-- C4 counterexample: with `DEC = 90`, `Lat = 0` and an observation time at
which the hour angle is 6 h (`sin HA > 0`), `to_alt_az` returns azimuth
exactly 360, which is not in the half-open interval `[0, 360)`. -/
theorem to_alt_az_az_eq_360 :
    (to_alt_az_core jdConst 0 90 0 0 0 0).2 = 360
    ∧ ¬ (to_alt_az_core jdConst 0 90 0 0 0 0).2 < 360 := by
  have h : (to_alt_az_core jdConst 0 90 0 0 0 0).2 = 360 := by
    simp only [to_alt_az_core]
    rw [lst_jdConst, hourangle_six]
    rw [show (6:ℝ) * 15 = 90 by norm_num, deg2rad_ninety, deg2rad_zero]
    rw [Real.sin_pi_div_two, Real.cos_pi_div_two, Real.sin_zero, Real.cos_zero]
    norm_num
    exact rad2deg_two_pi
  exact ⟨h, by rw [h]; norm_num⟩

/-- For a degree value in `[-90, 90]` the cosine of its radian conversion is
nonnegative. -/
theorem cos_deg2rad_nonneg {d : ℝ} (h : |d| ≤ 90) : 0 ≤ Real.cos (deg2rad d) := by
  rw [abs_le] at h
  apply Real.cos_nonneg_of_mem_Icc
  unfold deg2rad
  have hπ : 0 < Real.pi := Real.pi_pos
  constructor
  · have h1 : (0:ℝ) ≤ (d + 90) * (Real.pi / 180) :=
      mul_nonneg (by linarith [h.1]) (by positivity)
    nlinarith
  · have h2 : (0:ℝ) ≤ (90 - d) * (Real.pi / 180) :=
      mul_nonneg (by linarith [h.2]) (by positivity)
    nlinarith

/-- C7: for declination and latitude in their documented `[-90, 90]` domains,
`max_alt DEC Lat` equals `arcsin (sin DEC * sin Lat + cos DEC * cos Lat)`
(hour angle fixed at 0) and dominates the altitude returned by `to_alt_az`
for every RA, longitude, observation time and UTC offset, and for every
Julian-date routine. -/
theorem max_alt_ge_altitude (toJd : ℝ → ℝ) (RA DEC Lat Lon t z : ℝ)
    (hD : |DEC| ≤ 90) (hL : |Lat| ≤ 90) :
    max_alt DEC Lat = rad2deg (Real.arcsin (Real.sin (deg2rad DEC) * Real.sin (deg2rad Lat)
      + Real.cos (deg2rad DEC) * Real.cos (deg2rad Lat)))
    ∧ (to_alt_az_core toJd RA DEC Lat Lon t z).1 ≤ max_alt DEC Lat := by
  constructor
  · unfold max_alt
    rw [Real.cos_zero, mul_one]
  · simp only [to_alt_az_core, max_alt]
    apply rad2deg_le_rad2deg
    apply Real.monotone_arcsin
    rw [Real.cos_zero, mul_one]
    have hcc : 0 ≤ Real.cos (deg2rad DEC) * Real.cos (deg2rad Lat) :=
      mul_nonneg (cos_deg2rad_nonneg hD) (cos_deg2rad_nonneg hL)
    have hc1 : Real.cos (deg2rad (hourangle (lst toJd t Lon z) RA * 15)) ≤ 1 :=
      Real.cos_le_one _
    nlinarith

/-- Witness for C7 at `DEC = 0`, `Lat = 0`. -/
theorem max_alt_ge_altitude_witness :
    |(0:ℝ)| ≤ 90 ∧ (to_alt_az_core jdConst 0 0 0 0 0 0).1 ≤ max_alt 0 0 :=
  ⟨by norm_num, (max_alt_ge_altitude jdConst 0 0 0 0 0 0 (by norm_num) (by norm_num)).2⟩

/-- Dynamic Python values as they reach the library's public entry points.
Datetimes and astropy `Time` objects carry their instant in hours on the
linear time scale; numpy arrays are lists of their element values. -/
inductive Py where
  | pyInt : ℤ → Py
  | pyFloat : ℝ → Py
  | pyDatetime : ℝ → Py
  | pyAstroTime : ℝ → Py
  | pyArr : List ℝ → Py
  | pyDtArr : List ℝ → Py
  | pyStr : String → Py

/-- `isinstance(x, (int, float))`. -/
def isNumeric : Py → Bool
  | .pyInt _ => true
  | .pyFloat _ => true
  | _ => false

/-- The numeric value of an `int`/`float` (unused on other constructors). -/
noncomputable def numVal : Py → ℝ
  | .pyInt n => (n : ℝ)
  | .pyFloat x => x
  | _ => 0

/-- `np.isscalar`: true for Python numbers and strings, false for datetimes,
astropy `Time` objects and numpy arrays. -/
def npIsScalar : Py → Bool
  | .pyInt _ => true
  | .pyFloat _ => true
  | .pyStr _ => true
  | _ => false

/-- `if isinstance(obs_time, Time): obs_time = obs_time.to_datetime()`. -/
def normTime : Py → Py
  | .pyAstroTime x => .pyDatetime x
  | o => o

/-- `isinstance(x, datetime)`. -/
def isDatetimeVal : Py → Bool
  | .pyDatetime _ => true
  | _ => false

/-- `np.atleast_1d` on a numeric scalar or a numeric array (dynamic failure
on other values). -/
noncomputable def atleast1dNum : Py → Option (List ℝ)
  | .pyInt n => some [(n : ℝ)]
  | .pyFloat x => some [x]
  | .pyArr xs => some xs
  | _ => none

/-- `np.atleast_1d` on a datetime scalar or an array of datetimes. -/
def atleast1dDt : Py → Option (List ℝ)
  | .pyDatetime t => some [t]
  | .pyDtArr ts => some ts
  | _ => none

/-- Elementwise numpy binary broadcasting over 1-d arrays: equal lengths act
elementwise, a length-1 operand is broadcast, any other length mismatch is a
runtime error. -/
def broadcast2 (f : ℝ → ℝ → ℝ) (xs ys : List ℝ) : Option (List ℝ) :=
  if xs.length = ys.length then some (List.zipWith f xs ys)
  else if xs.length = 1 then some (ys.map (f (xs.headD 0)))
  else if ys.length = 1 then some (xs.map (fun x => f x (ys.headD 0)))
  else none

/-- `hour_angle.hourangle` as called dynamically: `atleast_1d` both inputs,
compute the normalized hour angle elementwise, and return `HA[0]` when both
inputs were numpy scalars, the array otherwise. -/
noncomputable def hourangle_np (LST RA : Py) : Option Py := do
  let ls ← atleast1dNum LST
  let ra ← atleast1dNum RA
  let ha ← broadcast2 hourangle ls ra
  if npIsScalar LST && npIsScalar RA then
    return .pyFloat (ha.headD 0)
  else
    return .pyArr ha

/-- `lst.lst` as called dynamically: `atleast_1d` the inputs, convert each
local time to UT (`local_to_ut` receives arrays, so it returns the array),
map the Julian-date routine, apply the GMST polynomial mod 24, add
`longitude / 15` and reduce mod 24; return `LST[0]` only if every input was a
numpy scalar. -/
noncomputable def lst_np (toJd : ℝ → ℝ) (dateTime longitude timeZone : Py) :
    Option Py := do
  let ts ← atleast1dDt dateTime
  let lons ← atleast1dNum longitude
  let tzs ← atleast1dNum timeZone
  let ut ← broadcast2 local_to_ut ts tzs
  let jd := ut.map toJd
  let gmst := jd.map (fun j => pmod (18.697374558 + 24.06570982441908 * (j - 2451545.0)) 24)
  let lstPre ← broadcast2 (fun g l => g + l / 15) gmst lons
  let lstArr := lstPre.map (fun x => pmod x 24)
  if npIsScalar dateTime && npIsScalar longitude && npIsScalar timeZone then
    return .pyFloat (lstArr.headD 0)
  else
    return .pyArr lstArr

/-- `AltAz.to_alt_az` as called dynamically, in source order: normalize an
astropy `Time`, validate RA, DEC, Lat, Lon as `int`/`float` and `obs_time` as
a `datetime` (raising `TypeError` with the source's message otherwise), then
run the numeric core on the (necessarily scalar) inputs and unwrap only if
`np.isscalar` holds of every original input. -/
noncomputable def to_alt_az_py (toJd : ℝ → ℝ) (RA DEC Lat Lon obsTime : Py)
    (timeZone : ℝ) : Except String (Py × Py) :=
  let obs := normTime obsTime
  if isNumeric RA = false then .error ("Expected a float or int for \x27RA\x27.")
  else if isNumeric DEC = false then .error ("Expected a float or int for \x27DEC\x27.")
  else if isNumeric Lat = false then .error ("Expected a float or int for \x27Lat\x27.")
  else if isNumeric Lon = false then .error ("Expected a float or int for \x27Lon\x27.")
  else match obs with
    | .pyDatetime t =>
      let p := to_alt_az_core toJd (numVal RA) (numVal DEC) (numVal Lat) (numVal Lon) t timeZone
      if npIsScalar RA && npIsScalar DEC && npIsScalar Lat && npIsScalar Lon
          && npIsScalar (Py.pyDatetime t) then
        .ok (.pyFloat p.1, .pyFloat p.2)
      else
        .ok (.pyArr [p.1], .pyArr [p.2])
    | _ => .error ("Expected a datetime.datetime object for \x27obs_time\x27.")

/-- `AltAz.max_alt` as called dynamically: validate DEC and Lat as
`int`/`float`, compute the culmination altitude, and unwrap to a scalar when
both inputs are numpy scalars (they always are once validated). -/
noncomputable def max_alt_py (DEC Lat : Py) : Except String Py :=
  if isNumeric DEC = false then .error ("Expected a float or int for \x27DEC\x27.")
  else if isNumeric Lat = false then .error ("Expected a float or int for \x27Lat\x27.")
  else
    let alt := max_alt (numVal DEC) (numVal Lat)
    if npIsScalar DEC && npIsScalar Lat then .ok (.pyFloat alt)
    else .ok (.pyArr [alt])

theorem broadcast2_eq_len (f : ℝ → ℝ → ℝ) (xs ys : List ℝ)
    (h : xs.length = ys.length) :
    broadcast2 f xs ys = some (List.zipWith f xs ys) := by
  unfold broadcast2
  rw [if_pos h]

theorem zipWith_replicate_eq (f : ℝ → ℝ → ℝ) (n : ℕ) (a b : ℝ) :
    List.zipWith f (List.replicate n a) (List.replicate n b)
      = List.replicate n (f a b) := by
  induction n with
  | zero => rfl
  | succ k ih => simp [List.replicate_succ, ih]

/-- C6: `to_alt_az` validates eagerly and fails with a `TypeError` naming the
offending parameter: any non-numeric RA yields the error naming RA (whatever
the other arguments and the Julian-date routine are), and with numeric
RA/DEC/Lat/Lon any `obs_time` that is not a datetime (after astropy `Time`
normalization) yields the error naming `obs_time`; in either case the result
is an error, so no partial result is produced. -/
theorem to_alt_az_validation_errors (toJd : ℝ → ℝ) (RA DEC Lat Lon obsTime : Py)
    (tz : ℝ) :
    (isNumeric RA = false →
      to_alt_az_py toJd RA DEC Lat Lon obsTime tz
        = .error ("Expected a float or int for \x27RA\x27."))
    ∧ (isNumeric RA = true → isNumeric DEC = true → isNumeric Lat = true →
       isNumeric Lon = true → isDatetimeVal (normTime obsTime) = false →
      to_alt_az_py toJd RA DEC Lat Lon obsTime tz
        = .error ("Expected a datetime.datetime object for \x27obs_time\x27.")) := by
  constructor
  · intro h
    unfold to_alt_az_py
    rw [if_pos h]
  · intro h1 h2 h3 h4 h5
    unfold to_alt_az_py
    rw [if_neg (by rw [h1]; exact fun hcontra => Bool.noConfusion hcontra)]
    rw [if_neg (by rw [h2]; exact fun hcontra => Bool.noConfusion hcontra)]
    rw [if_neg (by rw [h3]; exact fun hcontra => Bool.noConfusion hcontra)]
    rw [if_neg (by rw [h4]; exact fun hcontra => Bool.noConfusion hcontra)]
    rcases hobs : normTime obsTime with v | v | v | v | v | v | v <;>
      rw [hobs] at h5 <;> simp [isDatetimeVal] at h5 ⊢

/-- Witness for C6: a string RA is rejected with the RA message, and a string
`obs_time` (with numeric coordinates) is rejected with the obs_time
message. -/
theorem to_alt_az_validation_errors_witness :
    to_alt_az_py (fun _ => 0) (.pyStr ("x")) (.pyFloat 0) (.pyFloat 0) (.pyFloat 0)
        (.pyDatetime 0) 0
      = .error ("Expected a float or int for \x27RA\x27.")
    ∧ to_alt_az_py (fun _ => 0) (.pyFloat 0) (.pyFloat 0) (.pyFloat 0) (.pyFloat 0)
        (.pyStr ("bad")) 0
      = .error ("Expected a datetime.datetime object for \x27obs_time\x27.") :=
  ⟨(to_alt_az_validation_errors (fun _ => 0) (.pyStr ("x")) (.pyFloat 0) (.pyFloat 0)
      (.pyFloat 0) (.pyDatetime 0) 0).1 rfl,
   (to_alt_az_validation_errors (fun _ => 0) (.pyFloat 0) (.pyFloat 0) (.pyFloat 0)
      (.pyFloat 0) (.pyStr ("bad")) 0).2 rfl rfl rfl rfl rfl⟩

/-- C8 counterexample: `max_alt` called with two equal-length sequences does
not return a sequence — its eager `isinstance(DEC, (int, float))` validation
rejects the array with a `TypeError`. -/
theorem max_alt_rejects_sequences :
    max_alt_py (.pyArr [0, 0]) (.pyArr [0, 0])
      = .error ("Expected a float or int for \x27DEC\x27.") := rfl

/-- C8 (amended): the scalar/sequence calling conventions the code actually
implements, for every Julian-date routine.  `hourangle` maps scalars to
scalars, equal-length sequences to a sequence of the same length, and N
identical repeated inputs to N repetitions of the scalar result.  `max_alt`
maps scalars to scalars but rejects sequences with a `TypeError` naming DEC.
`to_alt_az` rejects sequences with a `TypeError` naming RA, and on all-scalar
input returns a pair of length-1 arrays (because `np.isscalar` is false on a
`datetime`), not scalars.  `lst` likewise returns a length-1 array on
all-scalar input, maps equal-length sequences to a sequence of the same
length, and maps N identical repeated inputs to N repetitions of the
corresponding elementwise value. -/
theorem batch_calling_conventions (toJd : ℝ → ℝ) :
    (∀ x y : ℝ, hourangle_np (.pyFloat x) (.pyFloat y)
        = some (.pyFloat (hourangle x y)))
    ∧ (∀ xs ys : List ℝ, xs.length = ys.length →
        hourangle_np (.pyArr xs) (.pyArr ys)
          = some (.pyArr (List.zipWith hourangle xs ys))
        ∧ (List.zipWith hourangle xs ys).length = xs.length)
    ∧ (∀ (n : ℕ) (x y : ℝ),
        hourangle_np (.pyArr (List.replicate n x)) (.pyArr (List.replicate n y))
          = some (.pyArr (List.replicate n (hourangle x y))))
    ∧ (∀ x y : ℝ, max_alt_py (.pyFloat x) (.pyFloat y) = .ok (.pyFloat (max_alt x y)))
    ∧ (∀ xs ys : List ℝ, max_alt_py (.pyArr xs) (.pyArr ys)
        = .error ("Expected a float or int for \x27DEC\x27."))
    ∧ (∀ (xs : List ℝ) (DEC Lat Lon obs : Py) (tz : ℝ),
        to_alt_az_py toJd (.pyArr xs) DEC Lat Lon obs tz
          = .error ("Expected a float or int for \x27RA\x27."))
    ∧ (∀ ra dec lat lon t tz : ℝ,
        to_alt_az_py toJd (.pyFloat ra) (.pyFloat dec) (.pyFloat lat) (.pyFloat lon)
            (.pyDatetime t) tz
          = .ok (.pyArr [(to_alt_az_core toJd ra dec lat lon t tz).1],
                 .pyArr [(to_alt_az_core toJd ra dec lat lon t tz).2]))
    ∧ (∀ t L z : ℝ, lst_np toJd (.pyDatetime t) (.pyFloat L) (.pyFloat z)
        = some (.pyArr [lst toJd t L z]))
    ∧ (∀ ts Ls zs : List ℝ, ts.length = Ls.length → ts.length = zs.length →
        ∃ out : List ℝ, lst_np toJd (.pyDtArr ts) (.pyArr Ls) (.pyArr zs)
          = some (.pyArr out) ∧ out.length = ts.length)
    ∧ (∀ (n : ℕ) (t L z : ℝ),
        lst_np toJd (.pyDtArr (List.replicate n t)) (.pyArr (List.replicate n L))
            (.pyArr (List.replicate n z))
          = some (.pyArr (List.replicate n (lst toJd t L z)))) := by
  refine ⟨?_, ?_, ?_, ?_, ?_, ?_, ?_, ?_, ?_, ?_⟩
  · intro x y
    rfl
  · intro xs ys h
    constructor
    · simp only [hourangle_np, atleast1dNum, Option.bind_eq_bind, Option.some_bind,
        broadcast2_eq_len hourangle xs ys h]
      rfl
    · rw [List.length_zipWith, h, min_self]
  · intro n x y
    have h : (List.replicate n x).length = (List.replicate n y).length := by
      simp
    simp only [hourangle_np, atleast1dNum, Option.bind_eq_bind, Option.some_bind,
      broadcast2_eq_len hourangle _ _ h, zipWith_replicate_eq]
    rfl
  · intro x y
    rfl
  · intro xs ys
    rfl
  · intro xs DEC Lat Lon obs tz
    rfl
  · intro ra dec lat lon t tz
    rfl
  · intro t L z
    rfl
  · intro ts Ls zs h1 h2
    have hut := broadcast2_eq_len local_to_ut ts zs h2
    have hutlen : (List.zipWith local_to_ut ts zs).length = ts.length := by
      rw [List.length_zipWith, ← h2, min_self]
    have hglen : (List.map
        (fun j => pmod (18.697374558 + 24.06570982441908 * (j - 2451545.0)) 24)
        (List.map toJd (List.zipWith local_to_ut ts zs))).length = Ls.length := by
      simp only [List.length_map]
      rw [hutlen, h1]
    have hpre := broadcast2_eq_len (fun g l => g + l / 15) _ Ls hglen
    refine ⟨(List.zipWith (fun g l => g + l / 15)
        (List.map (fun j => pmod (18.697374558 + 24.06570982441908 * (j - 2451545.0)) 24)
          (List.map toJd (List.zipWith local_to_ut ts zs)))
        Ls).map (fun x => pmod x 24), ?_, ?_⟩
    · simp only [lst_np, atleast1dDt, atleast1dNum, Option.bind_eq_bind, Option.some_bind,
        hut, hpre]
      rfl
    · simp only [List.length_map, List.length_zipWith]
      omega
  · intro n t L z
    have h1 : (List.replicate n t).length = (List.replicate n z).length := by
      simp
    have hut := broadcast2_eq_len local_to_ut _ _ h1
    rw [zipWith_replicate_eq] at hut
    have h2 : (List.map
        (fun j => pmod (18.697374558 + 24.06570982441908 * (j - 2451545.0)) 24)
        (List.map toJd (List.replicate n (local_to_ut t z)))).length
          = (List.replicate n L).length := by
      simp
    have hpre := broadcast2_eq_len (fun g l => g + l / 15) _ _ h2
    simp only [List.map_replicate] at hpre
    rw [zipWith_replicate_eq] at hpre
    simp only [lst_np, atleast1dDt, atleast1dNum, Option.bind_eq_bind, Option.some_bind,
      hut, List.map_replicate, hpre]
    rfl

/-- Witness for C8 at a concrete equal-length instantiation. -/
theorem batch_calling_conventions_witness :
    ([1, 2] : List ℝ).length = ([3, 4] : List ℝ).length
    ∧ hourangle_np (.pyArr [1, 2]) (.pyArr [3, 4])
        = some (.pyArr (List.zipWith hourangle [1, 2] [3, 4])) :=
  ⟨rfl, ((batch_calling_conventions (fun _ => 0)).2.1 [1, 2] [3, 4] rfl).1⟩
